import Mathlib

/-!
Verification of the crypto-address checker bot (src/bot.py) against its
natural-language specification.

The development shallowly embeds the parts of the program the claims are
about:

* the ordered regular-expression table CRYPTO_PATTERNS and the classifier
  detect_crypto_type;
* the per-coin balance adapters (check_bitcoin, check_ethereum,
  check_litecoin, check_tron_usdt, check_ethereum_usdt, check_dogecoin),
  modelled as pure functions of the address, the configured API key, and a
  network oracle that supplies the response (or raised exception) of each
  outbound HTTP request in order;
* the dispatch function check_address with its try/except boundary;
* the language preference store (set_language / get_user_language);
* the decision structure of main, including the arity of the
  CryptoCheckerBot constructor call.

Python-level behaviours are made explicit: fallible operations return
Except PyExc, dictionary access distinguishes .get-with-default from
item access (KeyError), numbers taken from JSON are divided exactly over
the rationals (abstracting Python float arithmetic, which is exact at
every value the claims mention), and Python truthiness is a function on
JSON values.
-/

/-- Python exceptions that the embedded fragments can raise. -/
inductive PyExc where
  | keyError (key : String)
  | attributeError
  | typeErr
  | valueError
  | requestError
deriving DecidableEq, Repr

/-- The seven coin tags of the pattern table, in the source's spelling. -/
inductive CoinType where
  | bitcoin
  | ethereum
  | litecoin
  | tron
  | usdt_trc20
  | usdt_erc20
  | dogecoin
deriving DecidableEq, Repr

/-- The Python dict key string of a coin tag (the source keys both
CRYPTO_PATTERNS and crypto_apis by these strings). -/
def CoinType.key : CoinType → String
  | .bitcoin => "bitcoin"
  | .ethereum => "ethereum"
  | .litecoin => "litecoin"
  | .tron => "tron"
  | .usdt_trc20 => "usdt_trc20"
  | .usdt_erc20 => "usdt_erc20"
  | .dogecoin => "dogecoin"

/-- Parsed JSON values, the result of response.json(). Provider balances
are integers (satoshi, wei, sun, token minor units), so numbers are Int. -/
inductive Json where
  | null
  | bool (b : Bool)
  | num (n : Int)
  | str (s : String)
  | arr (elems : List Json)
  | obj (fields : List (String × Json))

/-- Python truthiness of a JSON value. -/
def pyTruthy : Json → Bool
  | .null => false
  | .bool b => b
  | .num n => n != 0
  | .str s => !s.isEmpty
  | .arr xs => !xs.isEmpty
  | .obj fs => !fs.isEmpty

/-- Python equality of a JSON value with a string literal (comparison of a
str with a non-str value is False, never an error). -/
def Json.eqStr : Json → String → Bool
  | .str t, s => t == s
  | _, _ => false

/-- Python d.get(key, default): AttributeError when the receiver is not a
dict, otherwise the stored value or the default. -/
def pyGetD (j : Json) (key : String) (d : Json) : Except PyExc Json :=
  match j with
  | .obj fs => .ok ((((fs.find? (fun p => p.1 == key))).map (fun p => p.2)).getD d)
  | _ => .error .attributeError

/-- Python d[key]: KeyError when the key is absent, TypeError when the
receiver is not a dict. -/
def pyGetItem (j : Json) (key : String) : Except PyExc Json :=
  match j with
  | .obj fs =>
    match fs.find? (fun p => p.1 == key) with
    | some p => .ok p.2
    | none => .error (.keyError key)
  | _ => .error .typeErr

/-- Python int(x) on a JSON value. -/
def pyIntOf : Json → Except PyExc Int
  | .num n => .ok n
  | .bool b => .ok (if b then 1 else 0)
  | .str s =>
    match s.toInt? with
    | some n => .ok n
    | none => .error .valueError
  | _ => .error .typeErr

/-- Python x / d for a JSON value x and a positive integer divisor d,
computed exactly over the rationals. -/
def pyDiv (j : Json) (d : ℚ) : Except PyExc ℚ :=
  match j with
  | .num n => .ok ((n : ℚ) / d)
  | .bool b => .ok ((if b then (1 : ℚ) else 0) / d)
  | _ => .error .typeErr

/-- Python len(x). -/
def pyLen : Json → Except PyExc Nat
  | .arr xs => .ok xs.length
  | .str s => .ok s.length
  | .obj fs => .ok fs.length
  | _ => .error .typeErr

/-- Python iteration over a JSON value, as the list of iterated values
(list elements; dict keys; characters of a string). -/
def pyIterList : Json → Except PyExc (List Json)
  | .arr xs => .ok xs
  | .obj fs => .ok (fs.map (fun p => Json.str p.1))
  | .str s => .ok (s.data.map (fun c => Json.str (String.mk [c])))
  | _ => .error .typeErr

mutual
/-- Python str(x) as used by f-string interpolation of a JSON value. The
str and int cases are exact; the rendering of containers abbreviates
Python repr (no claim exercises it). -/
def pyStr : Json → String
  | .null => "None"
  | .bool b => if b then "True" else "False"
  | .num n => toString n
  | .str s => s
  | .arr xs => "[" ++ pyStrElems xs ++ "]"
  | .obj fs => "\x7b" ++ pyStrFields fs ++ "\x7d"

def pyStrElems : List Json → String
  | [] => ""
  | [x] => pyStr x
  | x :: xs => pyStr x ++ ", " ++ pyStrElems xs

def pyStrFields : List (String × Json) → String
  | [] => ""
  | [(k, v)] => k ++ ": " ++ pyStr v
  | (k, v) :: fs => k ++ ": " ++ pyStr v ++ ", " ++ pyStrFields fs
end

/-- Rendering of a rational inside an f-string. Python formats these
values as floats; the embedding computes exactly, so this prints the
exact value (an integer when the denominator is 1, a fraction otherwise).
The spec waives byte-exactness of the numeric rendering. -/
def showQ (q : ℚ) : String :=
  if q.den = 1 then toString q.num else toString q.num ++ "/" ++ toString q.den

/- ## The address classifier -/

/-- Character class of the bitcoin pattern body: a-z, A-H, J-N, P-Z, 0-9. -/
def inClassBtc (c : Char) : Bool :=
  ('a' ≤ c && c ≤ 'z') || ('A' ≤ c && c ≤ 'H') || ('J' ≤ c && c ≤ 'N') ||
  ('P' ≤ c && c ≤ 'Z') || ('0' ≤ c && c ≤ '9')

/-- Hex digit: 0-9, a-f, A-F. -/
def isHexCh (c : Char) : Bool :=
  ('0' ≤ c && c ≤ '9') || ('a' ≤ c && c ≤ 'f') || ('A' ≤ c && c ≤ 'F')

/-- Character class of the litecoin pattern body: a-k, m-z, A-H, J-N,
P-Z, 1-9. -/
def inClassLtc (c : Char) : Bool :=
  ('a' ≤ c && c ≤ 'k') || ('m' ≤ c && c ≤ 'z') || ('A' ≤ c && c ≤ 'H') ||
  ('J' ≤ c && c ≤ 'N') || ('P' ≤ c && c ≤ 'Z') || ('1' ≤ c && c ≤ '9')

/-- ASCII alphanumeric. -/
def isAlnumCh (c : Char) : Bool :=
  ('a' ≤ c && c ≤ 'z') || ('A' ≤ c && c ≤ 'Z') || ('0' ≤ c && c ≤ '9')

/-- Second-character class of the dogecoin pattern: 5-9, A-H, J-N, P-U. -/
def inClassDoge2 (c : Char) : Bool :=
  ('5' ≤ c && c ≤ '9') || ('A' ≤ c && c ≤ 'H') || ('J' ≤ c && c ≤ 'N') ||
  ('P' ≤ c && c ≤ 'U')

/-- Body class of the dogecoin pattern: 1-9, A-H, J-N, P-Z, a-k, m-z. -/
def inClassDoge3 (c : Char) : Bool :=
  ('1' ≤ c && c ≤ '9') || ('A' ≤ c && c ≤ 'H') || ('J' ≤ c && c ≤ 'N') ||
  ('P' ≤ c && c ≤ 'Z') || ('a' ≤ c && c ≤ 'k') || ('m' ≤ c && c ≤ 'z')

/-- The bitcoin regex core: (bc1 or 1 or 3) then 25 to 39 body chars. -/
def matchBitcoin : List Char → Bool
  | 'b' :: 'c' :: '1' :: rest =>
    decide (25 ≤ rest.length) && decide (rest.length ≤ 39) && rest.all inClassBtc
  | c :: rest =>
    (c == '1' || c == '3') && decide (25 ≤ rest.length) &&
      decide (rest.length ≤ 39) && rest.all inClassBtc
  | [] => false

/-- The ethereum regex core: 0x then exactly 40 hex digits. The source's
usdt_erc20 pattern is the identical regex string. -/
def matchEthereum : List Char → Bool
  | '0' :: 'x' :: rest => rest.length == 40 && rest.all isHexCh
  | _ => false

/-- The litecoin regex core: L, M or 3 then 26 to 33 body chars. -/
def matchLitecoin : List Char → Bool
  | c :: rest =>
    (c == 'L' || c == 'M' || c == '3') && decide (26 ≤ rest.length) &&
      decide (rest.length ≤ 33) && rest.all inClassLtc
  | [] => false

/-- The tron regex core: T then exactly 33 alphanumerics. The source's
usdt_trc20 pattern is the identical regex string. -/
def matchTron : List Char → Bool
  | 'T' :: rest => rest.length == 33 && rest.all isAlnumCh
  | _ => false

/-- The dogecoin regex core: D, one second-class char, 32 body chars. -/
def matchDogecoin : List Char → Bool
  | 'D' :: c2 :: rest => inClassDoge2 c2 && rest.length == 32 && rest.all inClassDoge3
  | _ => false

/-- Python re.match with a pattern of the form caret-core-dollar: the core
must cover the whole string, except that the final dollar anchor also
matches just before a single trailing newline (documented Python
semantics of the dollar anchor outside MULTILINE mode). -/
def pyMatch (core : List Char → Bool) (s : String) : Bool :=
  core s.data || (s.data.getLast? == some '\n' && core s.data.dropLast)

/-- A matcher that accepts exactly the full string, with no
trailing-newline allowance. This is the reading the claim's words give
of the matchers; compare with pyMatch. -/
def fullMatch (core : List Char → Bool) (s : String) : Bool :=
  core s.data

/-- The ordered pattern table of the source (insertion order of the
Python dict). The usdt_trc20 and usdt_erc20 regex strings are character
for character the tron and ethereum ones, so they share the embedded
matcher. -/
def CRYPTO_PATTERNS : List (CoinType × (String → Bool)) :=
  [(.bitcoin, pyMatch matchBitcoin),
   (.ethereum, pyMatch matchEthereum),
   (.litecoin, pyMatch matchLitecoin),
   (.tron, pyMatch matchTron),
   (.usdt_trc20, pyMatch matchTron),
   (.usdt_erc20, pyMatch matchEthereum),
   (.dogecoin, pyMatch matchDogecoin)]

/-- The same table with strict full-string matchers, as the claim words
the algorithm. -/
def CRYPTO_PATTERNS_full : List (CoinType × (String → Bool)) :=
  [(.bitcoin, fullMatch matchBitcoin),
   (.ethereum, fullMatch matchEthereum),
   (.litecoin, fullMatch matchLitecoin),
   (.tron, fullMatch matchTron),
   (.usdt_trc20, fullMatch matchTron),
   (.usdt_erc20, fullMatch matchEthereum),
   (.dogecoin, fullMatch matchDogecoin)]

/-- detect_crypto_type: first pattern of the ordered table that re.match
accepts, None otherwise. -/
def detect_crypto_type (address : String) : Option CoinType :=
  (CRYPTO_PATTERNS.find? (fun p => p.2 address)).map (fun p => p.1)

/-- The classifier as the claim words it: first rule whose matcher
accepts the full string. -/
def classify_fullmatch (address : String) : Option CoinType :=
  (CRYPTO_PATTERNS_full.find? (fun p => p.2 address)).map (fun p => p.1)

/- ## HTTP layer and adapters -/

/-- An HTTP response as the adapters observe it: status code and parsed
JSON body (every adapter path that reads the body calls response.json()
immediately; a body that fails JSON decoding is outside this model and a
transport failure is a raised exception supplied by the oracle). -/
structure HttpResponse where
  status_code : Nat
  body : Json

/-- One adapter invocation: the value returned or exception raised, and
the URLs of the outbound requests actually issued, in order. -/
structure AdapterRun where
  result : Except PyExc String
  requests : List String

/-- The network oracle: the response of (or the exception raised by) the
i-th requests.get call of one adapter invocation. -/
def Net : Type := Nat → Except PyExc HttpResponse

/-- check_bitcoin: blockcypher endpoint, satoshi values divided by 1e8. -/
def check_bitcoin (address : String) (net : Net) : AdapterRun :=
  let url := "https://api.blockcypher.com/v1/btc/main/addrs/" ++ address
  match net 0 with
  | .error e => ⟨.error e, [url]⟩
  | .ok response =>
    if response.status_code = 200 then
      let r : Except PyExc String := do
        let data := response.body
        let balance ← pyDiv (← pyGetD data "balance" (.num 0)) 100000000
        let total_received ← pyDiv (← pyGetD data "total_received" (.num 0)) 100000000
        let total_sent ← pyDiv (← pyGetD data "total_sent" (.num 0)) 100000000
        let n_tx ← pyGetD data "n_tx" (.num 0)
        .ok ("Bitcoin Address: " ++ address ++ "\nBalance: " ++ showQ balance ++
             " BTC\nTotal Received: " ++ showQ total_received ++
             " BTC\nTotal Sent: " ++ showQ total_sent ++
             " BTC\nTransactions: " ++ pyStr n_tx)
      ⟨r, [url]⟩
    else
      ⟨.ok ("Error checking Bitcoin address: " ++ toString response.status_code), [url]⟩

/-- check_litecoin: same shape as check_bitcoin on the ltc endpoint. -/
def check_litecoin (address : String) (net : Net) : AdapterRun :=
  let url := "https://api.blockcypher.com/v1/ltc/main/addrs/" ++ address
  match net 0 with
  | .error e => ⟨.error e, [url]⟩
  | .ok response =>
    if response.status_code = 200 then
      let r : Except PyExc String := do
        let data := response.body
        let balance ← pyDiv (← pyGetD data "balance" (.num 0)) 100000000
        let total_received ← pyDiv (← pyGetD data "total_received" (.num 0)) 100000000
        let total_sent ← pyDiv (← pyGetD data "total_sent" (.num 0)) 100000000
        let n_tx ← pyGetD data "n_tx" (.num 0)
        .ok ("Litecoin Address: " ++ address ++ "\nBalance: " ++ showQ balance ++
             " LTC\nTotal Received: " ++ showQ total_received ++
             " LTC\nTotal Sent: " ++ showQ total_sent ++
             " LTC\nTransactions: " ++ pyStr n_tx)
      ⟨r, [url]⟩
    else
      ⟨.ok ("Error checking Litecoin address: " ++ toString response.status_code), [url]⟩

/-- check_dogecoin: same shape as check_bitcoin on the doge endpoint. -/
def check_dogecoin (address : String) (net : Net) : AdapterRun :=
  let url := "https://api.blockcypher.com/v1/doge/main/addrs/" ++ address
  match net 0 with
  | .error e => ⟨.error e, [url]⟩
  | .ok response =>
    if response.status_code = 200 then
      let r : Except PyExc String := do
        let data := response.body
        let balance ← pyDiv (← pyGetD data "balance" (.num 0)) 100000000
        let total_received ← pyDiv (← pyGetD data "total_received" (.num 0)) 100000000
        let total_sent ← pyDiv (← pyGetD data "total_sent" (.num 0)) 100000000
        let n_tx ← pyGetD data "n_tx" (.num 0)
        .ok ("Dogecoin Address: " ++ address ++ "\nBalance: " ++ showQ balance ++
             " DOGE\nTotal Received: " ++ showQ total_received ++
             " DOGE\nTotal Sent: " ++ showQ total_sent ++
             " DOGE\nTransactions: " ++ pyStr n_tx)
      ⟨r, [url]⟩
    else
      ⟨.ok ("Error checking Dogecoin address: " ++ toString response.status_code), [url]⟩

/-- check_ethereum: short-circuits on a missing etherscan key, one
balance request (wei divided by 1e18), then one transaction-list request
whose JSON status gates the reported count; the second response's HTTP
status code is never inspected. -/
def check_ethereum (etherscanKey address : String) (net : Net) : AdapterRun :=
  if etherscanKey = "" then
    ⟨.ok "Etherscan API key is not set", []⟩
  else
    let url := "https://api.etherscan.io/api?module=account&action=balance&address=" ++
      address ++ "&tag=latest&apikey=" ++ etherscanKey
    match net 0 with
    | .error e => ⟨.error e, [url]⟩
    | .ok response =>
      if response.status_code = 200 then
        let data := response.body
        match pyGetItem data "status" with
        | .error e => ⟨.error e, [url]⟩
        | .ok st =>
          if st.eqStr "1" then
            match (pyGetItem data "result").bind pyIntOf with
            | .error e => ⟨.error e, [url]⟩
            | .ok n =>
              let balance : ℚ := (n : ℚ) / 1000000000000000000
              let tx_url := "https://api.etherscan.io/api?module=account&action=txlist&address=" ++
                address ++ "&startblock=0&endblock=99999999&sort=desc&apikey=" ++ etherscanKey
              match net 1 with
              | .error e => ⟨.error e, [url, tx_url]⟩
              | .ok tx_response =>
                let tx_data := tx_response.body
                match pyGetItem tx_data "status" with
                | .error e => ⟨.error e, [url, tx_url]⟩
                | .ok txst =>
                  match (if txst.eqStr "1" then
                           (pyGetD tx_data "result" (.arr [])).bind pyLen
                         else .ok 0) with
                  | .error e => ⟨.error e, [url, tx_url]⟩
                  | .ok tx_count =>
                    ⟨.ok ("Ethereum Address: " ++ address ++ "\nBalance: " ++
                          showQ balance ++ " ETH\nTransactions: " ++ toString tx_count),
                     [url, tx_url]⟩
          else
            match pyGetItem data "message" with
            | .error e => ⟨.error e, [url]⟩
            | .ok msg =>
              ⟨.ok ("Error checking Ethereum address: " ++ pyStr msg), [url]⟩
      else
        ⟨.ok ("Error checking Ethereum address: " ++ toString response.status_code), [url]⟩

/-- The fixed USDT TRC20 contract identifier of the source. -/
def tronUsdtContract : String := "TR7NHqjeKQxGTCi8q8ZY4pL8otSzgjLj6t"

/-- The for-loop of check_tron_usdt: scan the token list for the entry
whose tokenId equals the contract identifier, take its balance divided by
1e6, keep 0 when no entry matches. -/
def tronUsdtScan (contract : String) : List Json → Except PyExc ℚ
  | [] => .ok 0
  | t :: ts => do
    let tid ← pyGetD t "tokenId" .null
    if tid.eqStr contract then
      let b ← pyGetD t "balance" (.num 0)
      let n ← pyIntOf b
      .ok ((n : ℚ) / 1000000)
    else
      tronUsdtScan contract ts

/-- check_tron_usdt: trongrid token endpoint (the optional
TRON-PRO-API-KEY header carries the key when configured and affects no
modelled observable). The success and data fields gate the scan with
Python truthiness and short-circuit evaluation. -/
def check_tron_usdt (address : String) (net : Net) : AdapterRun :=
  let url := "https://api.trongrid.io/v1/accounts/" ++ address ++
    "/tokens?contract_address=" ++ tronUsdtContract
  match net 0 with
  | .error e => ⟨.error e, [url]⟩
  | .ok response =>
    if response.status_code = 200 then
      let data := response.body
      match pyGetD data "success" (.bool false) with
      | .error e => ⟨.error e, [url]⟩
      | .ok succ =>
        if pyTruthy succ then
          match pyGetD data "data" (.arr []) with
          | .error e => ⟨.error e, [url]⟩
          | .ok dl =>
            if pyTruthy dl then
              match (pyGetItem data "data").bind pyIterList with
              | .error e => ⟨.error e, [url]⟩
              | .ok tokens =>
                match tronUsdtScan tronUsdtContract tokens with
                | .error e => ⟨.error e, [url]⟩
                | .ok usdt_balance =>
                  ⟨.ok ("USDT (TRC20) Address: " ++ address ++ "\nBalance: " ++
                        showQ usdt_balance ++ " USDT"), [url]⟩
            else
              ⟨.ok ("No USDT (TRC20) tokens found for address: " ++ address), [url]⟩
        else
          ⟨.ok ("No USDT (TRC20) tokens found for address: " ++ address), [url]⟩
    else
      ⟨.ok ("Error checking USDT (TRC20) address: " ++ toString response.status_code), [url]⟩

/-- check_ethereum_usdt: short-circuits on a missing etherscan key, one
token-balance request, minor units divided by 1e6, provider message text
surfaced on a non-1 status. -/
def check_ethereum_usdt (etherscanKey address : String) (net : Net) : AdapterRun :=
  if etherscanKey = "" then
    ⟨.ok "Etherscan API key is not set", []⟩
  else
    let contract_address := "0xdac17f958d2ee523a2206206994597c13d831ec7"
    let url := "https://api.etherscan.io/api?module=account&action=tokenbalance&contractaddress=" ++
      contract_address ++ "&address=" ++ address ++ "&tag=latest&apikey=" ++ etherscanKey
    match net 0 with
    | .error e => ⟨.error e, [url]⟩
    | .ok response =>
      if response.status_code = 200 then
        match pyGetItem response.body "status" with
        | .error e => ⟨.error e, [url]⟩
        | .ok st =>
          if st.eqStr "1" then
            match (pyGetItem response.body "result").bind pyIntOf with
            | .error e => ⟨.error e, [url]⟩
            | .ok n =>
              ⟨.ok ("USDT (ERC20) Address: " ++ address ++ "\nBalance: " ++
                    showQ ((n : ℚ) / 1000000) ++ " USDT"), [url]⟩
          else
            match pyGetItem response.body "message" with
            | .error e => ⟨.error e, [url]⟩
            | .ok msg =>
              ⟨.ok ("Error checking USDT (ERC20) address: " ++ pyStr msg), [url]⟩
      else
        ⟨.ok ("Error checking USDT (ERC20) address: " ++ toString response.status_code), [url]⟩

/- ## Dispatch, localization, preferences, main -/

/-- Modelled from the spec: the localization catalog under locales/ is a
repository file absent from src; the spec treats "resolve localized
string by key" as an external collaborator capability. The lookup is
modelled injectively as a tagging of the key, the locale, and the
interpolated arguments. -/
def i18n_t (key locale : String) (args : List String) : String :=
  "[" ++ locale ++ "] " ++ key ++ String.join (args.map (fun a => " " ++ a))

/-- The keys of the crypto_apis handler dict of the bot constructor. -/
def crypto_apis_keys : List String :=
  ["bitcoin", "ethereum", "litecoin", "tron", "usdt_trc20", "usdt_erc20", "dogecoin"]

/-- check_address: the per-address dispatch. Emits the localized checking
notice, then inside the try block either forwards the adapter's returned
string to the chat or emits the unsupported-crypto notice; the except
block turns any raised exception into the generic localized error notice
(the exception detail goes to the log, which has no chat-visible
effect). The returned list is every chat message sent, in order. -/
def check_address (userLang address : String) (cryptoType : CoinType)
    (adapterResult : Except PyExc String) : List String :=
  let checking := i18n_t "messages.checking" userLang
    [address, i18n_t ("crypto." ++ cryptoType.key) userLang []]
  let tryBody : Except PyExc (List String) :=
    if crypto_apis_keys.contains cryptoType.key then
      match adapterResult with
      | .ok result => .ok [result]
      | .error e => .error e
    else
      .ok [i18n_t "messages.unsupported_crypto" userLang []]
  match tryBody with
  | .ok msgs => checking :: msgs
  | .error _ => [checking, i18n_t "messages.error" userLang []]

/-- Python dict assignment m[k] = v on an insertion-ordered
association list: update in place, append when new. -/
def dictSet (m : List (String × String)) (k v : String) : List (String × String) :=
  match m with
  | [] => [(k, v)]
  | (k0, v0) :: rest => if k0 = k then (k0, v) :: rest else (k0, v0) :: dictSet rest k v

/-- Python m.get(k, d). -/
def dictGetD (m : List (String × String)) (k d : String) : String :=
  match m with
  | [] => d
  | (k0, v0) :: rest => if k0 = k then v0 else dictGetD rest k d

/-- set_language: stores the language for the user and returns the new
store together with the localized confirmation sent to the room. -/
def set_language (m : List (String × String)) (user_id lang : String) :
    List (String × String) × String :=
  (dictSet m user_id lang, i18n_t "messages.language_changed" lang [])

/-- get_user_language: the stored language, defaulting to ru. The store
starts empty in the bot constructor. -/
def get_user_language (m : List (String × String)) (user_id : String) : String :=
  dictGetD m user_id "ru"

/-- The parameters of CryptoCheckerBot.__init__ after self (source line
44): homeserver and access_token only. -/
def cryptoCheckerBotInitParams : List String := ["homeserver", "access_token"]

/-- The number of positional arguments of the construction call
CryptoCheckerBot(homeserver, user_id, access_token) in main (source line
315). -/
def mainConstructorCallArity : Nat := 3

/-- How a run of main ends in the embedding. -/
inductive MainOutcome where
  | configReturn
  | typeErr
  | botStarted
deriving DecidableEq, Repr

/-- The decision structure of main over the three environment variables:
early return when any is empty (Python falsiness of the empty string) or
when the user id does not start with the at sign; otherwise the
constructor call, which raises TypeError unless its argument count
matches the parameter count of CryptoCheckerBot.__init__; only then is
bot.start() reached. -/
def bot_main (homeserver user_id access_token : String) : MainOutcome :=
  if (user_id == "") || (access_token == "") || (homeserver == "") then
    .configReturn
  else if !(user_id.data.head? == some '@') then
    .configReturn
  else if mainConstructorCallArity == cryptoCheckerBotInitParams.length then
    .botStarted
  else
    .typeErr

/-- A token-list entry that is a JSON object whose tokenId field (absent
meaning None) is not the given contract string. These are exactly the
entries the check_tron_usdt loop skips. -/
def tokenOmits (contract : String) : Json → Bool
  | .obj fs =>
    let tid : Json := ((fs.find? (fun p => p.1 == "tokenId")).map (fun p => p.2)).getD .null
    !(tid.eqStr contract)
  | _ => false

/- ## Helper lemmas -/

theorem dictGetD_dictSet (m : List (String × String)) (k v d : String) :
    dictGetD (dictSet m k v) k d = v := by
  induction m with
  | nil => simp [dictSet, dictGetD]
  | cons p rest ih =>
    obtain ⟨k0, v0⟩ := p
    by_cases h : k0 = k
    · simp [dictSet, dictGetD, h]
    · simp [dictSet, dictGetD, h, ih]

theorem tronUsdtScan_omits (c : String) (ts : List Json)
    (h : ts.all (tokenOmits c) = true) : tronUsdtScan c ts = .ok 0 := by
  induction ts with
  | nil => rfl
  | cons t ts ih =>
    rw [List.all_cons, Bool.and_eq_true] at h
    obtain ⟨ht, hts⟩ := h
    cases t with
    | obj fs =>
      simp only [tokenOmits, Bool.not_eq_true'] at ht
      simp [tronUsdtScan, pyGetD, bind, Except.bind, ht, ih hts]
    | null => simp [tokenOmits] at ht
    | bool b => simp [tokenOmits] at ht
    | num n => simp [tokenOmits] at ht
    | str s => simp [tokenOmits] at ht
    | arr xs => simp [tokenOmits] at ht

theorem tronUsdtScan_found (c : String) (pre rest : List Json) (b : Int)
    (h : pre.all (tokenOmits c) = true) :
    tronUsdtScan c (pre ++ Json.obj [("tokenId", Json.str c), ("balance", Json.num b)] :: rest) =
      .ok ((b : ℚ) / 1000000) := by
  induction pre with
  | nil => simp [tronUsdtScan, pyGetD, bind, Except.bind, Json.eqStr, pyIntOf]
  | cons t ts ih =>
    rw [List.all_cons, Bool.and_eq_true] at h
    obtain ⟨ht, hts⟩ := h
    cases t with
    | obj fs =>
      simp only [tokenOmits, Bool.not_eq_true'] at ht
      simp [tronUsdtScan, pyGetD, bind, Except.bind, ht, ih hts]
    | null => simp [tokenOmits] at ht
    | bool bb => simp [tokenOmits] at ht
    | num n => simp [tokenOmits] at ht
    | str s => simp [tokenOmits] at ht
    | arr xs => simp [tokenOmits] at ht

/- ## Claim theorems -/

/-- Claim C1: whenever the three environment variables are non-empty and
the user id starts with the at sign, main reaches the constructor call
CryptoCheckerBot(homeserver, user_id, access_token), whose three
arguments do not fit the two-parameter signature of
CryptoCheckerBot.__init__, so the run ends in TypeError and bot.start()
(login and message handling) is never reached. -/
theorem C1_constructor_arity_type_error (h u a : String)
    (hu : u ≠ "") (ha : a ≠ "") (hh : h ≠ "")
    (hat : u.data.head? = some '@') :
    bot_main h u a = MainOutcome.typeErr := by
  simp [bot_main, hu, ha, hh, hat, mainConstructorCallArity, cryptoCheckerBotInitParams]

/-- Witness for C1 at a concrete well-formed environment. -/
theorem C1_constructor_arity_type_error_witness :
    ("@bot:matrix.org" ≠ "" ∧ "secrettoken" ≠ "" ∧ "https://matrix.org" ≠ "" ∧
      "@bot:matrix.org".data.head? = some '@')
    ∧ bot_main "https://matrix.org" "@bot:matrix.org" "secrettoken" = MainOutcome.typeErr :=
  ⟨⟨by decide, by decide, by decide, by decide⟩,
   C1_constructor_arity_type_error "https://matrix.org" "@bot:matrix.org" "secrettoken"
     (by decide) (by decide) (by decide) (by decide)⟩

/-- Claim C7: with the etherscan key empty (the os.getenv default when
unset), check_ethereum and check_ethereum_usdt return the
missing-credential result and issue no outbound request, whatever the
network would answer. -/
theorem C7_missing_key_short_circuits (address : String) (net : Net) :
    check_ethereum "" address net = ⟨.ok "Etherscan API key is not set", []⟩
    ∧ check_ethereum_usdt "" address net = ⟨.ok "Etherscan API key is not set", []⟩ :=
  ⟨rfl, rfl⟩

/-- Claim C8: on an HTTP 404 response, each UTXO-style adapter returns
(never raises) the provider-unavailable notice carrying the status 404,
for every address and every response body. -/
theorem C8_utxo_404_provider_unavailable (address : String) (body : Json) :
    check_bitcoin address (fun _ => .ok ⟨404, body⟩) =
      ⟨.ok "Error checking Bitcoin address: 404",
       ["https://api.blockcypher.com/v1/btc/main/addrs/" ++ address]⟩
    ∧ check_litecoin address (fun _ => .ok ⟨404, body⟩) =
      ⟨.ok "Error checking Litecoin address: 404",
       ["https://api.blockcypher.com/v1/ltc/main/addrs/" ++ address]⟩
    ∧ check_dogecoin address (fun _ => .ok ⟨404, body⟩) =
      ⟨.ok "Error checking Dogecoin address: 404",
       ["https://api.blockcypher.com/v1/doge/main/addrs/" ++ address]⟩ := by
  have h404 : toString (404 : Nat) = "404" := by decide
  refine ⟨?_, ?_, ?_⟩ <;>
    simp [check_bitcoin, check_litecoin, check_dogecoin, h404]

/-- Claim C9: on HTTP 200 with balance, total_received, total_sent and
n_tx of 150000000, 150000000, 0 and 1, check_bitcoin reports balance 1.5
and total received 1.5 in BTC units (satoshi divided by exactly 1e8),
total sent 0, and transaction count 1. -/
theorem C9_bitcoin_satoshi_conversion (address : String) :
    check_bitcoin address (fun _ => .ok ⟨200,
        Json.obj [("balance", Json.num 150000000), ("total_received", Json.num 150000000),
                  ("total_sent", Json.num 0), ("n_tx", Json.num 1)]⟩) =
      ⟨.ok ("Bitcoin Address: " ++ address ++ "\nBalance: " ++ showQ 1.5 ++
            " BTC\nTotal Received: " ++ showQ 1.5 ++ " BTC\nTotal Sent: " ++ showQ 0 ++
            " BTC\nTransactions: " ++ pyStr (Json.num 1)),
       ["https://api.blockcypher.com/v1/btc/main/addrs/" ++ address]⟩ := by
  simp [check_bitcoin, pyGetD, pyDiv, bind, Except.bind]
  norm_num

/-- Claim C5: an exception raised by the invoked adapter is caught at the
check_address boundary and converted into the generic localized error
notice; the handler always returns its message list normally, so one bad
address cannot terminate the message loop. -/
theorem C5_adapter_exception_contained (lang address : String) (t : CoinType) (e : PyExc) :
    check_address lang address t (.error e) =
      [i18n_t "messages.checking" lang [address, i18n_t ("crypto." ++ t.key) lang []],
       i18n_t "messages.error" lang []] := by
  cases t <;> rfl

/-- Claim C10: setLanguage followed by getLanguage for the same user
returns the language just set, a second setLanguage overrides the first
(last-write-wins), and getLanguage on the initial empty store returns
the default ru. -/
theorem C10_language_roundtrip (m : List (String × String)) (u l l2 : String)
    (hl : l = "ru" ∨ l = "en") (hl2 : l2 = "ru" ∨ l2 = "en") :
    get_user_language (set_language m u l).1 u = l
    ∧ get_user_language (set_language (set_language m u l).1 u l2).1 u = l2
    ∧ get_user_language [] u = "ru" :=
  ⟨dictGetD_dictSet m u l "ru", dictGetD_dictSet (set_language m u l).1 u l2 "ru", rfl⟩

/-- Witness for C10 at a concrete user and the two concrete languages. -/
theorem C10_language_roundtrip_witness :
    ("en" = "ru" ∨ "en" = "en") ∧ ("ru" = "ru" ∨ "ru" = "en")
    ∧ get_user_language (set_language [] "@alice:matrix.org" "en").1 "@alice:matrix.org" = "en"
    ∧ get_user_language (set_language (set_language [] "@alice:matrix.org" "en").1
        "@alice:matrix.org" "ru").1 "@alice:matrix.org" = "ru"
    ∧ get_user_language [] "@alice:matrix.org" = "ru" :=
  ⟨Or.inr rfl, Or.inl rfl,
   C10_language_roundtrip [] "@alice:matrix.org" "en" "ru" (Or.inr rfl) (Or.inl rfl)⟩

/-- Claim C2 counterexample: re.match with a dollar anchor also accepts a
single trailing newline, so detect_crypto_type classifies a 40-hex-digit
0x string followed by a newline as ethereum although no rule accepts
that full string under strict anchoring (the claim then demands none). -/
theorem C2_counterexample :
    detect_crypto_type "0xaaaaaaaaaaaaaaaaaaaaaaaaaaaaaaaaaaaaaaaa\n" = some CoinType.ethereum
    ∧ classify_fullmatch "0xaaaaaaaaaaaaaaaaaaaaaaaaaaaaaaaaaaaaaaaa\n" = none :=
  ⟨by decide, by decide⟩

/-- Claim C2 as amended: detect_crypto_type returns the CoinType of the
first rule of the ordered table whose matcher accepts the string under
Python re.match semantics (full string, or full string less one trailing
newline), none when no rule accepts; and because the ethereum rule
precedes the identical usdt_erc20 rule and the tron rule precedes the
identical usdt_trc20 rule, the classifier never returns usdt_erc20 or
usdt_trc20 for any input. -/
theorem C2_first_match_wins (s : String) :
    ((∀ c : CoinType, detect_crypto_type s = some c ↔
        ∃ m pre post, CRYPTO_PATTERNS = pre ++ (c, m) :: post ∧ m s = true ∧
          ∀ q ∈ pre, q.2 s = false)
     ∧ (detect_crypto_type s = none ↔ ∀ q ∈ CRYPTO_PATTERNS, q.2 s = false))
    ∧ detect_crypto_type s ≠ some CoinType.usdt_trc20
    ∧ detect_crypto_type s ≠ some CoinType.usdt_erc20 := by
  refine ⟨⟨?_, ?_⟩, ?_, ?_⟩
  · intro c
    constructor
    · intro h
      rcases Option.map_eq_some'.mp h with ⟨⟨c1, m⟩, hfind, hfst⟩
      simp only at hfst
      subst hfst
      rcases List.find?_eq_some.mp hfind with ⟨hpm, as, bs, hsplit, hall⟩
      refine ⟨m, as, bs, hsplit, by simpa using hpm, ?_⟩
      intro q hq
      have := hall q hq
      simpa using this
    · rintro ⟨m, pre, post, hsplit, hms, hpre⟩
      have hfind : CRYPTO_PATTERNS.find? (fun p => p.2 s) = some (c, m) := by
        refine List.find?_eq_some.mpr ⟨by simpa using hms, pre, post, hsplit, ?_⟩
        intro a ha
        simpa using hpre a ha
      simp [detect_crypto_type, hfind]
  · rw [detect_crypto_type, Option.map_eq_none', List.find?_eq_none]
    constructor
    · intro h q hq
      have := h q hq
      simpa using this
    · intro h q hq
      simpa using h q hq
  · unfold detect_crypto_type CRYPTO_PATTERNS
    by_cases h1 : pyMatch matchBitcoin s <;>
      by_cases h2 : pyMatch matchEthereum s <;>
        by_cases h3 : pyMatch matchLitecoin s <;>
          by_cases h4 : pyMatch matchTron s <;>
            by_cases h5 : pyMatch matchDogecoin s <;>
              simp [List.find?, h1, h2, h3, h4, h5]
  · unfold detect_crypto_type CRYPTO_PATTERNS
    by_cases h1 : pyMatch matchBitcoin s <;>
      by_cases h2 : pyMatch matchEthereum s <;>
        by_cases h3 : pyMatch matchLitecoin s <;>
          by_cases h4 : pyMatch matchTron s <;>
            by_cases h5 : pyMatch matchDogecoin s <;>
              simp [List.find?, h1, h2, h3, h4, h5]

/-- Claim C3 counterexample: a bitcoin lookup failing with HTTP 404 makes
check_address send the adapter's returned error text, which carries the
raw status code 404, to the chat; that reply is not the generic
localized error notice. -/
theorem C3_counterexample :
    check_address "ru" "1BvBMSEYstWetqTFn5Au4m4GFg7xJaNVN2" CoinType.bitcoin
        (check_bitcoin "1BvBMSEYstWetqTFn5Au4m4GFg7xJaNVN2" (fun _ => .ok ⟨404, .null⟩)).result =
      [i18n_t "messages.checking" "ru"
         ["1BvBMSEYstWetqTFn5Au4m4GFg7xJaNVN2", i18n_t "crypto.bitcoin" "ru" []],
       "Error checking Bitcoin address: 404"]
    ∧ "Error checking Bitcoin address: 404" ≠ i18n_t "messages.error" "ru" [] :=
  ⟨by rfl, by decide⟩

/-- Claim C3 as amended: the adapters return their failure notices as
ordinary strings embedding the internal detail (the HTTP status code for
a transport-level failure, the provider's message text for a payload
error), and check_address forwards them verbatim to the chat; only a
raised exception is replaced by the generic localized error notice. -/
theorem C3_failure_detail_reaches_chat
    (lang address : String) (body : Json) (st : Nat) (key m : String)
    (hst : st ≠ 200) (hkey : key ≠ "") :
    check_address lang address CoinType.bitcoin
        (check_bitcoin address (fun _ => .ok ⟨st, body⟩)).result =
      [i18n_t "messages.checking" lang [address, i18n_t "crypto.bitcoin" lang []],
       "Error checking Bitcoin address: " ++ toString st]
    ∧ check_address lang address CoinType.ethereum
        (check_ethereum key address (fun _ => .ok ⟨200,
            Json.obj [("status", Json.str "0"), ("message", Json.str m)]⟩)).result =
      [i18n_t "messages.checking" lang [address, i18n_t "crypto.ethereum" lang []],
       "Error checking Ethereum address: " ++ m] := by
  constructor
  · simp [check_bitcoin, check_address, crypto_apis_keys, CoinType.key, hst, i18n_t]
  · simp [check_ethereum, check_address, crypto_apis_keys, CoinType.key, hkey,
          pyGetItem, Json.eqStr, pyStr, i18n_t]

/-- Witness for the amended C3 at a 404 bitcoin failure and a
provider-message ethereum failure. -/
theorem C3_failure_detail_reaches_chat_witness :
    ((404 : Nat) ≠ 200 ∧ "k" ≠ "")
    ∧ check_address "ru" "1BvBMSEYstWetqTFn5Au4m4GFg7xJaNVN2" CoinType.bitcoin
        (check_bitcoin "1BvBMSEYstWetqTFn5Au4m4GFg7xJaNVN2" (fun _ => .ok ⟨404, .null⟩)).result =
      [i18n_t "messages.checking" "ru"
         ["1BvBMSEYstWetqTFn5Au4m4GFg7xJaNVN2", i18n_t "crypto.bitcoin" "ru" []],
       "Error checking Bitcoin address: " ++ toString (404 : Nat)]
    ∧ check_address "ru" "0xaaaaaaaaaaaaaaaaaaaaaaaaaaaaaaaaaaaaaaaa" CoinType.ethereum
        (check_ethereum "k" "0xaaaaaaaaaaaaaaaaaaaaaaaaaaaaaaaaaaaaaaaa" (fun _ => .ok ⟨200,
            Json.obj [("status", Json.str "0"), ("message", Json.str "NOTOK")]⟩)).result =
      [i18n_t "messages.checking" "ru"
         ["0xaaaaaaaaaaaaaaaaaaaaaaaaaaaaaaaaaaaaaaaa", i18n_t "crypto.ethereum" "ru" []],
       "Error checking Ethereum address: " ++ "NOTOK"] :=
  ⟨⟨by decide, by decide⟩,
   (C3_failure_detail_reaches_chat "ru" "1BvBMSEYstWetqTFn5Au4m4GFg7xJaNVN2" .null 404 "k" "X"
      (by decide) (by decide)).1,
   (C3_failure_detail_reaches_chat "ru" "0xaaaaaaaaaaaaaaaaaaaaaaaaaaaaaaaaaaaaaaaa" .null 404 "k" "NOTOK"
      (by decide) (by decide)).2⟩

/-- Claim C4 counterexample: with the balance request succeeding at
provider status 1, a transaction-list request that raises propagates out
of check_ethereum, so the balance is discarded and the dispatch boundary
replies with the generic error notice instead of a report. -/
theorem C4_counterexample :
    (check_ethereum "k" "0xdeadbeef" (fun i =>
        if i = 0 then
          .ok ⟨200, Json.obj [("status", Json.str "1"), ("result", Json.num 1000000000000000000)]⟩
        else .error .requestError)).result = .error .requestError
    ∧ check_address "ru" "0xdeadbeef" CoinType.ethereum
        (check_ethereum "k" "0xdeadbeef" (fun i =>
            if i = 0 then
              .ok ⟨200, Json.obj [("status", Json.str "1"), ("result", Json.num 1000000000000000000)]⟩
            else .error .requestError)).result =
      [i18n_t "messages.checking" "ru" ["0xdeadbeef", i18n_t "crypto.ethereum" "ru" []],
       i18n_t "messages.error" "ru" []] :=
  ⟨by rfl, by rfl⟩

/-- Claim C4 as amended: when the second request completes with a JSON
payload whose status field is not 1 (whatever its HTTP status code, which
the code never inspects), the lookup still reports the converted balance
with the transaction count degraded to zero; a second request that
raises instead fails the whole lookup. -/
theorem C4_secondary_payload_failure_degrades
    (key address : String) (n : Int) (txCode : Nat) (s : String)
    (hkey : key ≠ "") (hs : s ≠ "1") :
    check_ethereum key address (fun i =>
        if i = 0 then
          .ok ⟨200, Json.obj [("status", Json.str "1"), ("result", Json.num n)]⟩
        else .ok ⟨txCode, Json.obj [("status", Json.str s)]⟩) =
      ⟨.ok ("Ethereum Address: " ++ address ++ "\nBalance: " ++
            showQ ((n : ℚ) / 1000000000000000000) ++ " ETH\nTransactions: " ++ toString (0 : Nat)),
       ["https://api.etherscan.io/api?module=account&action=balance&address=" ++ address ++
          "&tag=latest&apikey=" ++ key,
        "https://api.etherscan.io/api?module=account&action=txlist&address=" ++ address ++
          "&startblock=0&endblock=99999999&sort=desc&apikey=" ++ key]⟩ := by
  simp [check_ethereum, hkey, hs, pyGetItem, Json.eqStr, pyIntOf, bind, Except.bind]

/-- Witness for the amended C4 at a concrete 502 secondary response with
payload status 0. -/
theorem C4_secondary_payload_failure_degrades_witness :
    ("k" ≠ "" ∧ "0" ≠ "1")
    ∧ check_ethereum "k" "0xdeadbeef" (fun i =>
        if i = 0 then
          .ok ⟨200, Json.obj [("status", Json.str "1"), ("result", Json.num 2500000000000000000)]⟩
        else .ok ⟨502, Json.obj [("status", Json.str "0")]⟩) =
      ⟨.ok ("Ethereum Address: " ++ "0xdeadbeef" ++ "\nBalance: " ++
            showQ (((2500000000000000000 : Int) : ℚ) / 1000000000000000000) ++
            " ETH\nTransactions: " ++ toString (0 : Nat)),
       ["https://api.etherscan.io/api?module=account&action=balance&address=" ++ "0xdeadbeef" ++
          "&tag=latest&apikey=" ++ "k",
        "https://api.etherscan.io/api?module=account&action=txlist&address=" ++ "0xdeadbeef" ++
          "&startblock=0&endblock=99999999&sort=desc&apikey=" ++ "k"]⟩ :=
  ⟨⟨by decide, by decide⟩,
   C4_secondary_payload_failure_degrades "k" "0xdeadbeef" 2500000000000000000 502 "0"
     (by decide) (by decide)⟩

/-- Claim C6 counterexample: an HTTP 200 response with success true whose
token list is empty (and so omits the target contract) takes the
no-tokens-found branch, not the balance-0 report the claim demands. -/
theorem C6_counterexample :
    (check_tron_usdt "TXYZaddr" (fun _ => .ok ⟨200,
        Json.obj [("success", Json.bool true), ("data", Json.arr [])]⟩)).result =
      .ok "No USDT (TRC20) tokens found for address: TXYZaddr"
    ∧ "No USDT (TRC20) tokens found for address: TXYZaddr" ≠
        "USDT (TRC20) Address: TXYZaddr\nBalance: " ++ showQ 0 ++ " USDT" :=
  ⟨by rfl, by simp [showQ]; decide⟩

/-- Claim C6 as amended: on HTTP 200 with success true and a non-empty
token list, the adapter scans the whole list for the entry whose tokenId
is the fixed contract identifier; when every entry omits it the report
carries balance 0 (not the no-data branch), and when a matching entry
appears after any prefix of non-matching entries its balance divided by
1e6 is reported. -/
theorem C6_absent_token_reports_zero
    (address : String) (tokens : List Json)
    (hne : tokens ≠ [])
    (homit : tokens.all (tokenOmits tronUsdtContract) = true) :
    (check_tron_usdt address (fun _ => .ok ⟨200,
        Json.obj [("success", Json.bool true), ("data", Json.arr tokens)]⟩)).result =
      .ok ("USDT (TRC20) Address: " ++ address ++ "\nBalance: " ++ showQ 0 ++ " USDT")
    ∧ ∀ pre rest (b : Int), pre.all (tokenOmits tronUsdtContract) = true →
        (check_tron_usdt address (fun _ => .ok ⟨200,
            Json.obj [("success", Json.bool true), ("data", Json.arr (pre ++
              Json.obj [("tokenId", Json.str tronUsdtContract), ("balance", Json.num b)] :: rest))]⟩)).result =
          .ok ("USDT (TRC20) Address: " ++ address ++ "\nBalance: " ++
               showQ ((b : ℚ) / 1000000) ++ " USDT") := by
  constructor
  · have hscan := tronUsdtScan_omits tronUsdtContract tokens homit
    cases tokens with
    | nil => exact absurd rfl hne
    | cons t ts =>
      simp [check_tron_usdt, pyGetD, pyGetItem, pyIterList, pyTruthy, bind, Except.bind, hscan]
  · intro pre rest b hpre
    have hscan := tronUsdtScan_found tronUsdtContract pre rest b hpre
    have hne2 : (pre ++ Json.obj [("tokenId", Json.str tronUsdtContract), ("balance", Json.num b)] :: rest) ≠ [] := by
      simp
    cases hcase : pre ++ Json.obj [("tokenId", Json.str tronUsdtContract), ("balance", Json.num b)] :: rest with
    | nil => exact absurd hcase hne2
    | cons t ts =>
      rw [hcase] at hscan
      simp [check_tron_usdt, pyGetD, pyGetItem, pyIterList, pyTruthy, bind, Except.bind, hcase, hscan]

/-- Witness for the amended C6: a singleton list holding an unrelated
token reports balance 0, and appending the target entry after it reports
that entry's balance. -/
theorem C6_absent_token_reports_zero_witness :
    ([Json.obj [("tokenId", Json.str "1002000"), ("balance", Json.num 7)]] ≠ ([] : List Json)
     ∧ [Json.obj [("tokenId", Json.str "1002000"), ("balance", Json.num 7)]].all
         (tokenOmits tronUsdtContract) = true)
    ∧ (check_tron_usdt "TXYZaddr" (fun _ => .ok ⟨200,
        Json.obj [("success", Json.bool true),
                  ("data", Json.arr [Json.obj [("tokenId", Json.str "1002000"), ("balance", Json.num 7)]])]⟩)).result =
      .ok ("USDT (TRC20) Address: " ++ "TXYZaddr" ++ "\nBalance: " ++ showQ 0 ++ " USDT")
    ∧ (check_tron_usdt "TXYZaddr" (fun _ => .ok ⟨200,
        Json.obj [("success", Json.bool true),
                  ("data", Json.arr ([Json.obj [("tokenId", Json.str "1002000"), ("balance", Json.num 7)]] ++
                    Json.obj [("tokenId", Json.str tronUsdtContract), ("balance", Json.num 5000000)] :: []))]⟩)).result =
      .ok ("USDT (TRC20) Address: " ++ "TXYZaddr" ++ "\nBalance: " ++
           showQ ((5000000 : ℚ) / 1000000) ++ " USDT") :=
  ⟨⟨List.cons_ne_nil _ _, by decide⟩,
   (C6_absent_token_reports_zero "TXYZaddr"
      [Json.obj [("tokenId", Json.str "1002000"), ("balance", Json.num 7)]]
      (List.cons_ne_nil _ _) (by decide)).1,
   (C6_absent_token_reports_zero "TXYZaddr"
      [Json.obj [("tokenId", Json.str "1002000"), ("balance", Json.num 7)]]
      (List.cons_ne_nil _ _) (by decide)).2
     [Json.obj [("tokenId", Json.str "1002000"), ("balance", Json.num 7)]] [] 5000000 (by decide)⟩
